import Mathlib

/-!
Verification development for the Tasky personal-finance application.

The definitions below are a shallow embedding of the client-side
aggregation logic of the repository:

* `Ledger.historyRows`   — running-balance reconstruction
  (src/components/TransactionManager.tsx, lines 154-209; the copy in
  src/unnamed/part_004 lines 456-504 is textually identical).
* `Monthly.tm*` / `Monthly.fm*` — the two monthly aggregation
  variants (TransactionManager.tsx lines 212-261 and part_004 lines
  507-569; they differ in how transfers enter the totals).
* `Budgets.*`            — budget spend computation
  (src/components/BudgetsTab.tsx, lines 266-297).
* `TMAdd.*` / `FMAdd.*`  — the transaction-submission validation paths.
* `AccountMgr.*`         — account creation with duplicate-name guard.
* `Loans.*`              — loan creation and returned-flag toggling guards.

Monetary amounts and balances are modelled as exact rationals, dates and
creation timestamps used for ordering as integers (the value of
new Date(x).getTime()), identifiers as strings.  JavaScript record /
Map objects keyed by strings are modelled as insertion-ordered
association lists with the usual get/set semantics.
-/

/-- Transaction type enumeration, from the TxType union in the source. -/
inductive TxType where
  | income
  | expense
  | transfer
  | loan_given
  | loan_received
deriving DecidableEq, Repr

/-- Lookup in a JavaScript-object-like string-keyed record. -/
def recGet (m : List (String × ℚ)) (k : String) : Option ℚ :=
  (m.find? (fun p => p.1 = k)).map (·.2)

/-- Update/insert in a JavaScript-object-like string-keyed record:
an existing key is overwritten in place, a new key is appended
(insertion order, as JS objects and Maps behave). -/
def recSet (m : List (String × ℚ)) (k : String) (v : ℚ) : List (String × ℚ) :=
  if (m.find? (fun p => p.1 = k)).isSome then
    m.map (fun p => if p.1 = k then (k, v) else p)
  else
    m ++ [(k, v)]

/-- The idiom acc[k] = (acc[k] ?? 0) + v used by the reducers. -/
def recAdd (m : List (String × ℚ)) (k : String) (v : ℚ) : List (String × ℚ) :=
  recSet m k ((recGet m k).getD 0 + v)

/-- Model of the JavaScript String.prototype.startsWith, as a prefix
test on the character lists. -/
def strStartsWith (s p : String) : Bool :=
  p.data.isPrefixOf s.data

/-- ASCII whitespace recognised by the trim model. -/
def isWS (c : Char) : Bool :=
  c == ' ' || c == '\t' || c == '\n' || c == '\r'

/-- Model of String.prototype.trim: drop whitespace from both ends. -/
def jsTrim (s : String) : String :=
  ⟨((s.data.dropWhile isWS).reverse.dropWhile isWS).reverse⟩

/-- Model of String.prototype.toLowerCase over ASCII letters. -/
def jsToLower (s : String) : String :=
  ⟨s.data.map Char.toLower⟩

namespace Ledger

/-- Transaction record as consumed by historyRows.  The date and
created_at fields are modelled by the integer value that
new Date(x).getTime() yields on the stored ISO strings, which is all
the reconstruction ever reads of them. -/
structure Tx where
  id : String
  account_id : Option String
  to_account_id : Option String
  type : TxType
  amount : ℚ
  date : ℤ
  created_at : ℤ
deriving DecidableEq, Repr

/-- Account record as consumed by historyRows. -/
structure Account where
  id : String
  balance : ℚ
deriving DecidableEq, Repr

/-- Output row: the transaction together with balance_after and change. -/
structure Row where
  tx : Tx
  balance_after : ℚ
  change : ℚ
deriving DecidableEq, Repr

/-- The filter predicate: t.account_id === sel || t.to_account_id === sel. -/
def matchesAccount (sel : String) (t : Tx) : Prop :=
  t.account_id = some sel ∨ t.to_account_id = some sel

instance (sel : String) (t : Tx) : Decidable (matchesAccount sel t) := by
  unfold matchesAccount; infer_instance

/-- The sort comparator of historyRows as a total preorder: ascending
date, ties broken ascending by creation timestamp. -/
def keyLe (a b : Tx) : Prop :=
  a.date < b.date ∨ (a.date = b.date ∧ a.created_at ≤ b.created_at)

instance (a b : Tx) : Decidable (keyLe a b) := by
  unfold keyLe; infer_instance

/-- Stable insertion into a sorted list: the new element goes in front
of the first element it compares less-or-equal to. -/
def insertTx (t : Tx) : List Tx → List Tx
  | [] => [t]
  | u :: us => if keyLe t u then t :: u :: us else u :: insertTx t us

/-- Stable sort by (date, created_at).  The source uses the stable
Array.prototype.sort with the comparator of keyLe; any stable sort with
respect to the same total preorder yields the same list, so insertion
sort is a faithful model. -/
def sortTx : List Tx → List Tx
  | [] => []
  | t :: ts => insertTx t (sortTx ts)

/-- Signed delta of one transaction as computed inside the totalDelta
reducer (three successive non-exclusive if statements reassigning
delta, initial value 0). -/
def deltaOf (sel : String) (t : Tx) : ℚ :=
  let d : ℚ := 0
  let d := if t.type = TxType.income ∨ t.type = TxType.loan_received then
    (if t.account_id = some sel then t.amount else d) else d
  let d := if t.type = TxType.expense ∨ t.type = TxType.loan_given then
    (if t.account_id = some sel then -t.amount else d) else d
  let d := if t.type = TxType.transfer then
    (let d := if t.account_id = some sel then -t.amount else d
     if t.to_account_id = some sel then t.amount else d) else d
  d

/-- Signed change of one transaction as computed in the replay loop
(else-if chain over the type, initial value 0). -/
def changeOf (sel : String) (t : Tx) : ℚ :=
  if t.type = TxType.income ∨ t.type = TxType.loan_received then
    (if t.account_id = some sel then t.amount else 0)
  else if t.type = TxType.expense ∨ t.type = TxType.loan_given then
    (if t.account_id = some sel then -t.amount else 0)
  else if t.type = TxType.transfer then
    (let c := if t.account_id = some sel then -t.amount else 0
     if t.to_account_id = some sel then t.amount else c)
  else 0

/-- The txAsc.reduce((sum, t) => sum + delta, 0) total. -/
def totalDelta (sel : String) (ts : List Tx) : ℚ :=
  ts.foldl (fun s t => s + deltaOf sel t) 0

/-- The forward replay loop: starting from running, add each change and
record the post-transaction balance. -/
def replay (sel : String) (running : ℚ) : List Tx → List Row
  | [] => []
  | t :: ts =>
      ⟨t, running + changeOf sel t, changeOf sel t⟩ ::
        replay sel (running + changeOf sel t) ts

/-- historyRows of TransactionManager.tsx (lines 154-209) and of
src/unnamed/part_004 (lines 456-504): filter the transactions touching
the selected account, sort ascending by (date, created_at), back-compute
the starting balance from the current balance, replay forward, and
return the rows newest-first. -/
def historyRows (sel : String) (accounts : List Account) (ts : List Tx) :
    List Row :=
  if sel = "" then []
  else
    match accounts.find? (fun a => a.id = sel) with
    | none => []
    | some acc =>
        let txAsc := sortTx (ts.filter (fun t => matchesAccount sel t))
        (replay sel (acc.balance - totalDelta sel txAsc) txAsc).reverse

end Ledger

/-- JavaScript truthiness of a nullable string: null and the empty
string are falsy. -/
def isTruthy : Option String → Bool
  | some s => s != ""
  | none => false

namespace Monthly

/-- Transaction record as consumed by the monthly aggregations.  The
joined category name (t.category?.name) is modelled as an optional
string. -/
structure MTx where
  account_id : Option String
  to_account_id : Option String
  category_name : Option String
  type : TxType
  amount : ℚ
  date : String
deriving DecidableEq, Repr

/-- Account record as consumed by the monthly aggregations. -/
structure MAccount where
  id : String
  name : String
deriving DecidableEq, Repr

/-- monthTx = transactions.filter(t => t.date.startsWith(month)). -/
def monthTx (month : String) (ts : List MTx) : List MTx :=
  ts.filter (fun t => strStartsWith t.date month)

/-- Per-category expense totals, identical in both monthly variants:
expenses with a truthy joined category name, accumulated into a record
keyed by the category name. -/
def categorySpending (month : String) (ts : List MTx) : List (String × ℚ) :=
  ((monthTx month ts).filter
      (fun t => t.type == TxType.expense && isTruthy t.category_name)).foldl
    (fun acc t => recAdd acc (t.category_name.getD "") t.amount) []

/-- totalIncome of TransactionManager.tsx (lines 226-228): income,
loan_received, and transfers with a truthy destination account, summing
each transfer by its amount when the destination is truthy. -/
def tmTotalIncome (month : String) (ts : List MTx) : ℚ :=
  ((monthTx month ts).filter (fun t =>
      t.type == TxType.income || t.type == TxType.loan_received ||
        (t.type == TxType.transfer && isTruthy t.to_account_id))).foldl
    (fun s t => s +
      (if t.type == TxType.transfer then
        (if isTruthy t.to_account_id then t.amount else 0)
       else t.amount)) 0

/-- totalExpenses of TransactionManager.tsx (lines 230-232): expense,
loan_given and all transfers; the source ternary adds t.amount in either
branch. -/
def tmTotalExpenses (month : String) (ts : List MTx) : ℚ :=
  ((monthTx month ts).filter (fun t =>
      t.type == TxType.expense || t.type == TxType.loan_given ||
        t.type == TxType.transfer)).foldl
    (fun s t => s + t.amount) 0

/-- net = totalIncome - totalExpenses (TransactionManager variant). -/
def tmNet (month : String) (ts : List MTx) : ℚ :=
  tmTotalIncome month ts - tmTotalExpenses month ts

/-- totalIncome of src/unnamed/part_004 (lines 519-521): income and
loan_received only; transfers are excluded. -/
def fmTotalIncome (month : String) (ts : List MTx) : ℚ :=
  ((monthTx month ts).filter (fun t =>
      t.type == TxType.income || t.type == TxType.loan_received)).foldl
    (fun s t => s + t.amount) 0

/-- totalExpenses of src/unnamed/part_004 (lines 523-525): expense and
loan_given only; transfers are excluded. -/
def fmTotalExpenses (month : String) (ts : List MTx) : ℚ :=
  ((monthTx month ts).filter (fun t =>
      t.type == TxType.expense || t.type == TxType.loan_given)).foldl
    (fun s t => s + t.amount) 0

/-- net = totalIncome - totalExpenses (part_004 variant). -/
def fmNet (month : String) (ts : List MTx) : ℚ :=
  fmTotalIncome month ts - fmTotalExpenses month ts

/-- One entry of the per-account activity breakdown. -/
structure Breakdown where
  name : String
  income : ℚ
  expenses : ℚ
deriving DecidableEq, Repr

/-- accountBreakdown, textually identical in both monthly variants: per
account, income from own income/loan_received plus incoming transfers,
expenses from own expense/loan_given/transfer transactions. -/
def accountBreakdown (month : String) (accounts : List MAccount)
    (ts : List MTx) : List Breakdown :=
  accounts.map (fun acc =>
    let related := (monthTx month ts).filter (fun t =>
      t.account_id == some acc.id || t.to_account_id == some acc.id)
    let income :=
      (related.filter (fun t =>
          t.account_id == some acc.id &&
            (t.type == TxType.income || t.type == TxType.loan_received))).foldl
        (fun s t => s + t.amount) 0 +
      (related.filter (fun t =>
          t.type == TxType.transfer && t.to_account_id == some acc.id)).foldl
        (fun s t => s + t.amount) 0
    let expenses :=
      (related.filter (fun t =>
          t.account_id == some acc.id &&
            (t.type == TxType.expense || t.type == TxType.loan_given ||
              t.type == TxType.transfer))).foldl
        (fun s t => s + t.amount) 0
    ⟨acc.name, income, expenses⟩)

end Monthly

namespace Budgets

/-- Transaction record as consumed by the budget spend computation
(BudgetsTab.tsx); the rows memo reads type, category_id, account_id and
amount. -/
structure BTx where
  category_id : Option String
  account_id : Option String
  type : TxType
  amount : ℚ
deriving DecidableEq, Repr

/-- Budget record; account_id null means the all-accounts scope. -/
structure Budget where
  id : String
  category_id : String
  account_id : Option String
  amount : ℚ
deriving DecidableEq, Repr

/-- keyFn = (catId, accId) => catId + "::" + (accId ?? "ALL"). -/
def keyFn (catId : String) (accId : Option String) : String :=
  catId ++ "::" ++ accId.getD "ALL"

/-- One iteration of the spent-map loop: expenses with a truthy
category contribute their amount to the (category, account) bucket and
to the (category, ALL) bucket, in that order. -/
def spentStep (m : List (String × ℚ)) (t : BTx) : List (String × ℚ) :=
  if !(t.type == TxType.expense) || !(isTruthy t.category_id) then m
  else
    let c := t.category_id.getD ""
    let key := keyFn c t.account_id
    let allKey := keyFn c none
    recAdd (recAdd m key t.amount) allKey t.amount

/-- The spent map accumulated over all loaded transactions. -/
def buildSpentMap (ts : List BTx) : List (String × ℚ) :=
  ts.foldl spentStep []

/-- Derived values of one budget row. -/
structure BRow where
  spent : ℚ
  remaining : ℚ
  pct : ℚ
  status : String
deriving DecidableEq, Repr

/-- The per-budget computation of the rows memo (BudgetsTab.tsx lines
285-297): spent from the bucket of the budget key, remaining clamped at
0, pct clamped at 100 when the target is positive and 0 otherwise,
status from pct against the fixed 100 and 80 thresholds. -/
def budgetRow (spentMap : List (String × ℚ)) (b : Budget) : BRow :=
  let key := keyFn b.category_id b.account_id
  let spent := (recGet spentMap key).getD 0
  let remaining := max 0 (b.amount - spent)
  let pct := if b.amount > 0 then min 100 (spent / b.amount * 100) else 0
  ⟨spent, remaining, pct,
    if pct ≥ 100 then "exceeded" else if pct ≥ 80 then "warning" else "safe"⟩

/-- The mapping stage of rows: one BRow per budget.  The subsequent
filterStatus filter and sortBy sort of the memo only reorder or drop
rows for display and are not modelled. -/
def rowsMapped (budgets : List Budget) (ts : List BTx) : List BRow :=
  budgets.map (budgetRow (buildSpentMap ts))

end Budgets

namespace TMAdd

/-- Form state of the add-transaction form; the amount field holds the
value of parseFloat(newTx.amount || "0") as an exact rational (an empty
input parses to 0; a non-numeric input, which parseFloat turns into NaN,
is outside this model). -/
structure NewTx where
  type : TxType
  amount : ℚ
  description : String
  date : String
  account_id : String
  to_account_id : String
  category_id : String
deriving DecidableEq, Repr

/-- The insert payload sent to the transactions table. -/
structure InsertTx where
  user_id : String
  account_id : Option String
  to_account_id : Option String
  category_id : Option String
  type : TxType
  amount : ℚ
  description : String
  date : String
deriving DecidableEq, Repr

/-- addTransaction of TransactionManager.tsx (lines 264-298): after the
user check the payload is built and inserted directly; there is no local
validation of the amount.  The result is the insert issued to the remote
store, none when the function returns before inserting. -/
def addTransaction (uid : Option String) (newTx : NewTx) : Option InsertTx :=
  if !(isTruthy uid) then none
  else
    some {
      user_id := uid.getD ""
      type := newTx.type
      amount := newTx.amount
      description := jsTrim newTx.description
      date := newTx.date
      account_id := if newTx.account_id = "" then none else some newTx.account_id
      to_account_id :=
        if newTx.type = TxType.transfer then some newTx.to_account_id else none
      category_id :=
        if newTx.type = TxType.expense then some newTx.category_id else none
    }

end TMAdd

namespace FMAdd

/-- addTransaction of src/unnamed/part_004 (lines 615-661): the payload
is built, then rejected locally when the parsed amount is falsy, NaN or
non-positive, and only otherwise inserted.  NaN is outside the rational
model; the falsy case of 0 is the first disjunct. -/
def addTransaction (uid : Option String) (newTx : TMAdd.NewTx) :
    Option TMAdd.InsertTx :=
  if !(isTruthy uid) then none
  else
    let payload : TMAdd.InsertTx := {
      user_id := uid.getD ""
      type := newTx.type
      amount := newTx.amount
      description := jsTrim newTx.description
      date := newTx.date
      account_id := if newTx.account_id = "" then none else some newTx.account_id
      to_account_id :=
        if newTx.type = TxType.transfer then
          (if newTx.to_account_id = "" then none else some newTx.to_account_id)
        else none
      category_id :=
        if newTx.type = TxType.expense then
          (if newTx.category_id = "" then none else some newTx.category_id)
        else none
    }
    if payload.amount = 0 ∨ payload.amount ≤ 0 then none
    else some payload

end FMAdd

namespace AccountMgr

/-- Stored account record as loaded for the signed-in user. -/
structure Account where
  id : String
  name : String
  balance : ℚ
deriving DecidableEq, Repr

/-- Outcome of addAccount: either a local rejection with the displayed
message and no write, or the insert payload issued to the store. -/
inductive AddAccountResult where
  | rejected (msg : String)
  | insert (name : String) (balance : ℚ) (color : String) (user_id : String)
deriving DecidableEq, Repr

/-- Whether an addAccount outcome is a local rejection (no write). -/
def AddAccountResult.isRejected : AddAccountResult → Bool
  | .rejected _ => true
  | .insert _ _ _ _ => false

/-- addAccount of AccountManager.tsx (lines 85-128): empty trimmed name
and missing user are rejected first; then the trimmed name is compared
case-insensitively against the loaded accounts of the user and a match
rejects before the insert. -/
def addAccount (accounts : List Account) (user : Option String)
    (name : String) (balance : ℚ) (color : String) : AddAccountResult :=
  if jsTrim name = "" then .rejected "Account name is required."
  else if !(isTruthy user) then .rejected "You must be logged in to add accounts."
  else
    let trimmed := jsTrim name
    if accounts.any (fun a => jsToLower a.name == jsToLower trimmed) then
      .rejected "An account with this name already exists."
    else .insert trimmed balance color (user.getD "")

end AccountMgr

namespace Loans

/-- Loan direction. -/
inductive LoanType where
  | given
  | received
deriving DecidableEq, Repr

/-- Account record as loaded by LoanManager. -/
structure LAccount where
  id : String
  balance : ℚ
deriving DecidableEq, Repr

/-- Loan record fields read by toggleLoanStatus. -/
structure Loan where
  id : String
  person_name : String
  amount : ℚ
  type : LoanType
  description : String
  account_id : Option String
  is_returned : Bool
deriving DecidableEq, Repr

/-- Outcome of addLoan: rejected means the function returned before any
remote write (no loan row, no balance update, no audit transaction);
writes carries the balance written to the account and the audit
transaction type and amount. -/
inductive AddLoanResult where
  | rejected
  | writes (newBalance : ℚ) (txType : TxType) (txAmount : ℚ)
deriving DecidableEq, Repr

/-- addLoan of LoanManager.tsx (lines 65-139): missing user returns
silently, a missing selected account and an insufficient balance for a
given loan are rejected before the loan insert; otherwise the loan row,
the new balance and the audit transaction are written. -/
def addLoan (user : Option String) (accounts : List LAccount)
    (ltype : LoanType) (amount : ℚ) (account_id : String) : AddLoanResult :=
  if !(isTruthy user) then .rejected
  else
    match accounts.find? (fun a => a.id == account_id) with
    | none => .rejected
    | some selectedAccount =>
        if ltype = LoanType.given ∧ selectedAccount.balance < amount then
          .rejected
        else
          let newBalance :=
            if ltype = LoanType.given then selectedAccount.balance - amount
            else selectedAccount.balance + amount
          .writes newBalance
            (if ltype = LoanType.given then TxType.loan_given
             else TxType.loan_received)
            amount

/-- The balance recomputed by toggleLoanStatus: toggling to returned
reverses the original loan effect, toggling back reapplies it. -/
def toggleNewBalance (loan : Loan) (balance : ℚ) (newStatus : Bool) : ℚ :=
  if newStatus then
    (if loan.type = LoanType.given then balance + loan.amount
     else balance - loan.amount)
  else
    (if loan.type = LoanType.given then balance - loan.amount
     else balance + loan.amount)

/-- Outcome of toggleLoanStatus: rejected means no remote write at all;
writes carries the new returned flag, the balance written and whether an
audit transaction is inserted (only when marking as returned). -/
inductive ToggleResult where
  | rejected
  | writes (newStatus : Bool) (newBalance : ℚ) (auditTx : Bool)
deriving DecidableEq, Repr

/-- toggleLoanStatus of LoanManager.tsx (lines 141-223): the loan and
its account are looked up, the new balance is computed, a negative
result is rejected before the user fetch and before any write; the
audit transaction is inserted only when the new status is returned. -/
def toggleLoanStatus (loans : List Loan) (accounts : List LAccount)
    (id : String) (currentStatus : Bool) (user : Option String) :
    ToggleResult :=
  match loans.find? (fun l => l.id == id) with
  | none => .rejected
  | some loan =>
      match accounts.find? (fun a => some a.id == loan.account_id) with
      | none => .rejected
      | some selectedAccount =>
          let newStatus := !currentStatus
          let newBalance := toggleNewBalance loan selectedAccount.balance newStatus
          if newBalance < 0 then .rejected
          else if !(isTruthy user) then .rejected
          else .writes newStatus newBalance newStatus

end Loans

/-- March 2024 example of the spec: income 50000, expense 20000 in
category food, transfer 5000 from Account1 to Account2. -/
def c2txs : List Monthly.MTx :=
  [⟨some "A1", none, none, TxType.income, 50000, "2024-03-01"⟩,
   ⟨some "A1", none, some "food", TxType.expense, 20000, "2024-03-10"⟩,
   ⟨some "A1", some "A2", none, TxType.transfer, 5000, "2024-03-15"⟩]

/-- The two accounts of the March 2024 example. -/
def c2accounts : List Monthly.MAccount :=
  [⟨"A1", "Account1"⟩, ⟨"A2", "Account2"⟩]

namespace Ledger

/-- The reducer delta and the replay change agree on every transaction:
the reducer uses successive non-exclusive if statements and the replay
an else-if chain, but the type is a single enum value so only one
branch fires in each. -/
theorem deltaOf_eq_changeOf (sel : String) (t : Tx) :
    deltaOf sel t = changeOf sel t := by
  rcases t with ⟨id, aid, tid, ty, amt, d, c⟩
  cases ty <;> simp [deltaOf, changeOf]

/-- totalDelta over a list equals the fold of the replay change. -/
theorem totalDelta_eq_foldl_changeOf (sel : String) (ts : List Tx) :
    totalDelta sel ts = ts.foldl (fun s t => s + changeOf sel t) 0 := by
  unfold totalDelta
  induction ts with
  | nil => rfl
  | cons t ts ih => simp [List.foldl, deltaOf_eq_changeOf]

/-- Shifting the initial accumulator out of a sum-fold. -/
theorem foldl_add_shift (f : Tx → ℚ) :
    ∀ (ts : List Tx) (a : ℚ),
      ts.foldl (fun s t => s + f t) a = a + ts.foldl (fun s t => s + f t) 0 := by
  intro ts
  induction ts with
  | nil => intro a; simp
  | cons t ts ih =>
      intro a
      simp only [List.foldl]
      rw [ih (a + f t), ih (0 + f t)]
      ring

/-- The last row of a replay carries the initial running balance plus
the total of all changes. -/
theorem replay_getLast_balance (sel : String) :
    ∀ (ts : List Tx) (r : ℚ), ts ≠ [] →
      ((replay sel r ts).getLast?).map Row.balance_after =
        some (ts.foldl (fun s t => s + changeOf sel t) r) := by
  intro ts
  induction ts with
  | nil => intro r h; exact absurd rfl h
  | cons t ts ih =>
      intro r _
      cases ts with
      | nil => simp [replay]
      | cons u us =>
          have h2 : (u :: us : List Tx) ≠ [] := List.cons_ne_nil u us
          have hrec := ih (r + changeOf sel t) h2
          simp only [replay] at hrec ⊢
          rw [List.getLast?_cons_cons]
          simpa using hrec

end Ledger

/-- C1: for every account with current balance B and every list of
transactions, when the reconstruction for that account is nonempty, the
chronologically last entry (the head of the newest-first output)
carries balance_after equal to exactly B, regardless of transaction
count or of date/creation-timestamp ties. -/
theorem c1_balance_reconstruction_roundtrip
    (sel : String) (accounts : List Ledger.Account) (ts : List Ledger.Tx)
    (acc : Ledger.Account)
    (hfind : accounts.find? (fun a => a.id = sel) = some acc)
    (h : Ledger.historyRows sel accounts ts ≠ []) :
    (Ledger.historyRows sel accounts ts).head?.map Ledger.Row.balance_after =
      some acc.balance := by
  by_cases hsel : sel = ""
  · exact absurd (by simp [Ledger.historyRows, hsel]) h
  · unfold Ledger.historyRows at h ⊢
    rw [if_neg hsel, hfind] at h ⊢
    set txAsc := Ledger.sortTx (ts.filter (fun t => Ledger.matchesAccount sel t))
      with htx
    cases hne : txAsc with
    | nil => rw [hne] at h; simp [Ledger.replay] at h
    | cons t rest =>
        rw [List.head?_reverse]
        rw [Ledger.replay_getLast_balance sel (t :: rest)
          (acc.balance - Ledger.totalDelta sel (t :: rest))
          (List.cons_ne_nil t rest)]
        rw [Ledger.foldl_add_shift, Ledger.totalDelta_eq_foldl_changeOf]
        congr 1
        ring

/-- Witness for C1 on a concrete account and a single income
transaction. -/
theorem c1_balance_reconstruction_roundtrip_witness :
    ([⟨"A", 100⟩] : List Ledger.Account).find?
        (fun a => a.id = "A") = some ⟨"A", 100⟩ ∧
      Ledger.historyRows "A" [⟨"A", 100⟩]
        [⟨"t1", some "A", none, TxType.income, 50, 0, 0⟩] ≠ [] ∧
      (Ledger.historyRows "A" [⟨"A", 100⟩]
        [⟨"t1", some "A", none, TxType.income, 50, 0, 0⟩]).head?.map
          Ledger.Row.balance_after = some 100 :=
  ⟨by decide, by decide,
    c1_balance_reconstruction_roundtrip "A" _ _ ⟨"A", 100⟩ (by decide) (by decide)⟩

/-- C6: a transfer of amount X from account A to account B (A and B
distinct) is recorded by the reconstruction with signed change -X for A
and +X for B, so the two recorded changes sum to 0. -/
theorem c6_transfer_symmetry
    (t : Ledger.Tx) (a b : String) (accA accB : Ledger.Account)
    (hA : accA.id = a) (hB : accB.id = b)
    (hab : a ≠ b) (ha : a ≠ "") (hb : b ≠ "")
    (hty : t.type = TxType.transfer)
    (hsrc : t.account_id = some a) (hdst : t.to_account_id = some b) :
    Ledger.changeOf a t = -t.amount ∧
      Ledger.changeOf b t = t.amount ∧
      Ledger.changeOf a t + Ledger.changeOf b t = 0 ∧
      (Ledger.historyRows a [accA, accB] [t]).map Ledger.Row.change =
        [-t.amount] ∧
      (Ledger.historyRows b [accA, accB] [t]).map Ledger.Row.change =
        [t.amount] := by
  have hca : Ledger.changeOf a t = -t.amount := by
    simp [Ledger.changeOf, hty, hsrc, hdst, Ne.symm hab]
  have hcb : Ledger.changeOf b t = t.amount := by
    simp [Ledger.changeOf, hty, hsrc, hdst, hab]
  have hma : Ledger.matchesAccount a t := Or.inl hsrc
  have hmb : Ledger.matchesAccount b t := Or.inr hdst
  refine ⟨hca, hcb, by rw [hca, hcb]; ring, ?_, ?_⟩
  · simp [Ledger.historyRows, ha, hA, hma, Ledger.sortTx, Ledger.insertTx,
      Ledger.totalDelta, Ledger.replay, Ledger.deltaOf_eq_changeOf, hca]
  · simp [Ledger.historyRows, hb, hA, hB, hab, hmb, Ledger.sortTx,
      Ledger.insertTx, Ledger.totalDelta, Ledger.replay,
      Ledger.deltaOf_eq_changeOf, hcb]

/-- Witness for C6 on a concrete transfer of 5 from account A to
account B. -/
theorem c6_transfer_symmetry_witness :
    Ledger.changeOf "A" ⟨"t", some "A", some "B", TxType.transfer, 5, 0, 0⟩ =
        -5 ∧
      Ledger.changeOf "B" ⟨"t", some "A", some "B", TxType.transfer, 5, 0, 0⟩ =
        5 ∧
      Ledger.changeOf "A" ⟨"t", some "A", some "B", TxType.transfer, 5, 0, 0⟩ +
        Ledger.changeOf "B" ⟨"t", some "A", some "B", TxType.transfer, 5, 0, 0⟩ =
          0 ∧
      (Ledger.historyRows "A" [⟨"A", 10⟩, ⟨"B", 20⟩]
          [⟨"t", some "A", some "B", TxType.transfer, 5, 0, 0⟩]).map
        Ledger.Row.change = [-5] ∧
      (Ledger.historyRows "B" [⟨"A", 10⟩, ⟨"B", 20⟩]
          [⟨"t", some "A", some "B", TxType.transfer, 5, 0, 0⟩]).map
        Ledger.Row.change = [5] :=
  c6_transfer_symmetry ⟨"t", some "A", some "B", TxType.transfer, 5, 0, 0⟩
    "A" "B" ⟨"A", 10⟩ ⟨"B", 20⟩ rfl rfl (by decide) (by decide) (by decide)
    rfl rfl rfl

/-- C7: two transactions on the same calendar date with different
creation timestamps reconstruct in ascending creation-timestamp order
(so the newest-first output lists the later one first), and the output
is identical when the two input positions are swapped. -/
theorem c7_tiebreak_determinism
    (sel : String) (accounts : List Ledger.Account) (acc : Ledger.Account)
    (t1 t2 : Ledger.Tx)
    (hfind : accounts.find? (fun a => a.id = sel) = some acc)
    (hsel : sel ≠ "")
    (hm1 : Ledger.matchesAccount sel t1) (hm2 : Ledger.matchesAccount sel t2)
    (hdate : t1.date = t2.date) (hts : t1.created_at < t2.created_at) :
    Ledger.historyRows sel accounts [t1, t2] =
        Ledger.historyRows sel accounts [t2, t1] ∧
      (Ledger.historyRows sel accounts [t1, t2]).map Ledger.Row.tx =
        [t2, t1] := by
  have hk12 : Ledger.keyLe t1 t2 := Or.inr ⟨hdate, le_of_lt hts⟩
  have hk21 : ¬ Ledger.keyLe t2 t1 := by
    intro hk
    rcases hk with h | ⟨h1, h2⟩
    · rw [hdate] at h; exact lt_irrefl _ h
    · exact absurd hts (not_lt.mpr h2)
  have hsort1 : Ledger.sortTx [t1, t2] = [t1, t2] := by
    simp [Ledger.sortTx, Ledger.insertTx, hk12]
  have hsort2 : Ledger.sortTx [t2, t1] = [t1, t2] := by
    simp [Ledger.sortTx, Ledger.insertTx, hk12, hk21]
  constructor
  · simp [Ledger.historyRows, hsel, hfind, hm1, hm2, hsort1, hsort2]
  · simp [Ledger.historyRows, hsel, hfind, hm1, hm2, hsort1, Ledger.replay]

/-- Witness for C7 on two concrete same-date transactions with
creation timestamps 1 and 2. -/
theorem c7_tiebreak_determinism_witness :
    ([⟨"A", 100⟩] : List Ledger.Account).find?
        (fun a => a.id = "A") = some ⟨"A", 100⟩ ∧
      Ledger.historyRows "A" [⟨"A", 100⟩]
          [⟨"t1", some "A", none, TxType.income, 10, 0, 1⟩,
           ⟨"t2", some "A", none, TxType.expense, 4, 0, 2⟩] =
        Ledger.historyRows "A" [⟨"A", 100⟩]
          [⟨"t2", some "A", none, TxType.expense, 4, 0, 2⟩,
           ⟨"t1", some "A", none, TxType.income, 10, 0, 1⟩] ∧
      (Ledger.historyRows "A" [⟨"A", 100⟩]
          [⟨"t1", some "A", none, TxType.income, 10, 0, 1⟩,
           ⟨"t2", some "A", none, TxType.expense, 4, 0, 2⟩]).map
        Ledger.Row.tx =
          [⟨"t2", some "A", none, TxType.expense, 4, 0, 2⟩,
           ⟨"t1", some "A", none, TxType.income, 10, 0, 1⟩] :=
  ⟨by decide,
    (c7_tiebreak_determinism "A" [⟨"A", 100⟩] ⟨"A", 100⟩
        ⟨"t1", some "A", none, TxType.income, 10, 0, 1⟩
        ⟨"t2", some "A", none, TxType.expense, 4, 0, 2⟩
        (by decide) (by decide) (by decide) (by decide) rfl (by decide)).1,
    (c7_tiebreak_determinism "A" [⟨"A", 100⟩] ⟨"A", 100⟩
        ⟨"t1", some "A", none, TxType.income, 10, 0, 1⟩
        ⟨"t2", some "A", none, TxType.expense, 4, 0, 2⟩
        (by decide) (by decide) (by decide) (by decide) rfl (by decide)).2⟩

/-- C2 counterexample: in the TransactionManager monthly aggregation the
transfer is counted inside both totals, so totalIncome is 55000 (not
50000) and totalExpenses is 25000 (not 20000) on the March 2024
example. -/
theorem c2_monthly_example_counterexample :
    Monthly.tmTotalIncome "2024-03" c2txs ≠ 50000 ∧
      Monthly.tmTotalExpenses "2024-03" c2txs ≠ 20000 ∧
      Monthly.tmTotalIncome "2024-03" c2txs = 55000 ∧
      Monthly.tmTotalExpenses "2024-03" c2txs = 25000 := by
  norm_num +decide [c2txs, Monthly.tmTotalIncome, Monthly.tmTotalExpenses,
    Monthly.monthTx, strStartsWith, isTruthy, List.filter, List.foldl]

/-- C2 amended: on the March 2024 example the part_004 aggregation
reports totalIncome 50000, totalExpenses 20000; the TransactionManager
aggregation also counts the transfer in both totals (55000 and 25000);
both variants report net 30000 and categorySpending food = 20000, the
Account1 breakdown counts the transfer among its expenses (25000 total)
and the Account2 breakdown counts it as income (5000). -/
theorem c2_monthly_example :
    Monthly.fmTotalIncome "2024-03" c2txs = 50000 ∧
      Monthly.fmTotalExpenses "2024-03" c2txs = 20000 ∧
      Monthly.fmNet "2024-03" c2txs = 30000 ∧
      Monthly.tmTotalIncome "2024-03" c2txs = 55000 ∧
      Monthly.tmTotalExpenses "2024-03" c2txs = 25000 ∧
      Monthly.tmNet "2024-03" c2txs = 30000 ∧
      Monthly.categorySpending "2024-03" c2txs = [("food", 20000)] ∧
      Monthly.accountBreakdown "2024-03" c2accounts c2txs =
        [⟨"Account1", 50000, 25000⟩, ⟨"Account2", 5000, 0⟩] := by
  norm_num +decide [c2txs, c2accounts, Monthly.fmTotalIncome,
    Monthly.fmTotalExpenses, Monthly.fmNet, Monthly.tmTotalIncome,
    Monthly.tmTotalExpenses, Monthly.tmNet, Monthly.categorySpending,
    Monthly.accountBreakdown, Monthly.monthTx, strStartsWith, isTruthy,
    recAdd, recSet, recGet, List.filter, List.foldl]

/-- Setting a present key makes it the first hit of a lookup over the
mapped list. -/
theorem find?_map_set (k : String) (v : ℚ) :
    ∀ m : List (String × ℚ), (m.find? (fun p => p.1 = k)).isSome →
      (m.map (fun p => if p.1 = k then (k, v) else p)).find?
        (fun p => p.1 = k) = some (k, v) := by
  intro m
  induction m with
  | nil => intro h; simp at h
  | cons p ps ih =>
      intro h
      by_cases hp : p.1 = k
      · simp [hp]
      · simp only [List.map_cons, if_neg hp]
        rw [List.find?_cons_of_neg _ (by simp [hp])]
        apply ih
        rwa [List.find?_cons_of_neg _ (by simp [hp])] at h

/-- Setting one key leaves lookups of a different key unchanged. -/
theorem find?_map_set_ne (k q : String) (v : ℚ) (hne : q ≠ k) :
    ∀ m : List (String × ℚ),
      (m.map (fun p => if p.1 = k then (k, v) else p)).find?
          (fun p => p.1 = q) = m.find? (fun p => p.1 = q) := by
  intro m
  induction m with
  | nil => simp
  | cons p ps ih =>
      by_cases hp : p.1 = k
      · have hk : ¬ (k = q) := fun h => hne (h.symm)
        have hpq : ¬ (p.1 = q) := by rw [hp]; exact hk
        simp only [List.map_cons, if_pos hp]
        rw [List.find?_cons_of_neg _ (by simp [hk]),
          List.find?_cons_of_neg _ (by simp [hpq])]
        exact ih
      · simp only [List.map_cons, if_neg hp]
        by_cases hpq : p.1 = q
        · rw [List.find?_cons_of_pos _ (by simp [hpq]),
            List.find?_cons_of_pos _ (by simp [hpq])]
        · rw [List.find?_cons_of_neg _ (by simp [hpq]),
            List.find?_cons_of_neg _ (by simp [hpq])]
          exact ih

/-- recSet followed by recGet of the same key yields the written value. -/
theorem recGet_recSet_self (m : List (String × ℚ)) (k : String) (v : ℚ) :
    recGet (recSet m k v) k = some v := by
  unfold recSet
  split
  case isTrue h =>
    unfold recGet
    rw [find?_map_set k v m h]
    rfl
  case isFalse h =>
    unfold recGet
    rw [List.find?_append]
    have hn : m.find? (fun p => p.1 = k) = none := by
      cases hfind : m.find? (fun p => p.1 = k) with
      | none => rfl
      | some x => rw [hfind] at h; simp at h
    rw [hn]
    simp

/-- recSet of one key does not change recGet of a different key. -/
theorem recGet_recSet_ne (m : List (String × ℚ)) (k q : String) (v : ℚ)
    (hne : q ≠ k) : recGet (recSet m k v) q = recGet m q := by
  unfold recSet
  split
  case isTrue h =>
    unfold recGet
    rw [find?_map_set_ne k q v hne m]
  case isFalse h =>
    unfold recGet
    rw [List.find?_append]
    have hk : ¬ (k = q) := fun h => hne (h.symm)
    rcases hq : m.find? (fun p => p.1 = q) with _ | x
    · simp [hk]
    · rw [hq]; simp

/-- recAdd increments the bucket of its key. -/
theorem recGet_recAdd_self (m : List (String × ℚ)) (k : String) (v : ℚ) :
    recGet (recAdd m k v) k = some ((recGet m k).getD 0 + v) :=
  recGet_recSet_self m k _

/-- recAdd does not change the buckets of other keys. -/
theorem recGet_recAdd_ne (m : List (String × ℚ)) (k q : String) (v : ℚ)
    (hne : q ≠ k) : recGet (recAdd m k v) q = recGet m q :=
  recGet_recSet_ne m k q _ hne

/-- The specific-account key and the all-accounts key of the same
category differ as long as the account id is not the literal string
ALL used as the null marker. -/
theorem keyFn_some_ne_none (c a : String) (h : a ≠ "ALL") :
    Budgets.keyFn c (some a) ≠ Budgets.keyFn c none := by
  unfold Budgets.keyFn
  intro he
  apply h
  simp only [Option.getD_some, Option.getD_none] at he
  have h2 := congrArg String.data he
  simp only [String.data_append] at h2
  exact String.ext (List.append_cancel_left h2)

/-- One step of the spent-map fold on a qualifying expense is the
double recAdd into the account bucket and the all-accounts bucket. -/
theorem spentStep_expense (t : Budgets.BTx) (c a : String)
    (hty : t.type = TxType.expense) (hc : t.category_id = some c)
    (hc0 : c ≠ "") (ha : t.account_id = some a) :
    ∀ m, Budgets.spentStep m t =
      recAdd (recAdd m (Budgets.keyFn c (some a)) t.amount)
        (Budgets.keyFn c none) t.amount := by
  intro m
  unfold Budgets.spentStep
  rw [if_neg]
  · rw [hc, ha]
    simp
  · simp [hty, hc, isTruthy, hc0]

/-- C3: every expense transaction with a non-null category and a
source account contributes its amount to both the (category, account)
bucket and the (category, all-accounts) bucket of the spent map, and
after exactly one such expense of amount X a budget on (category,
account) and a budget on (category, all-accounts) each report
spent = X.  The account id is assumed distinct from the literal ALL
marker that the string-keyed map reserves for the all-accounts
bucket. -/
theorem c3_budget_dual_bucket
    (ts : List Budgets.BTx) (t : Budgets.BTx) (c a : String)
    (hty : t.type = TxType.expense)
    (hc : t.category_id = some c) (hc0 : c ≠ "")
    (ha : t.account_id = some a) (hALL : a ≠ "ALL")
    (bAcc bAll : Budgets.Budget)
    (hbAccC : bAcc.category_id = c) (hbAccA : bAcc.account_id = some a)
    (hbAllC : bAll.category_id = c) (hbAllA : bAll.account_id = none) :
    (recGet (Budgets.buildSpentMap (ts ++ [t]))
          (Budgets.keyFn c (some a))).getD 0 =
        (recGet (Budgets.buildSpentMap ts)
          (Budgets.keyFn c (some a))).getD 0 + t.amount ∧
      (recGet (Budgets.buildSpentMap (ts ++ [t]))
          (Budgets.keyFn c none)).getD 0 =
        (recGet (Budgets.buildSpentMap ts)
          (Budgets.keyFn c none)).getD 0 + t.amount ∧
      (Budgets.budgetRow (Budgets.buildSpentMap [t]) bAcc).spent = t.amount ∧
      (Budgets.budgetRow (Budgets.buildSpentMap [t]) bAll).spent = t.amount := by
  have hkey : Budgets.keyFn c (some a) ≠ Budgets.keyFn c none :=
    keyFn_some_ne_none c a hALL
  have hfold : Budgets.buildSpentMap (ts ++ [t]) =
      Budgets.spentStep (Budgets.buildSpentMap ts) t := by
    simp [Budgets.buildSpentMap, List.foldl_append]
  have hstep := spentStep_expense t c a hty hc hc0 ha
  have hsingle : Budgets.buildSpentMap [t] =
      recAdd (recAdd [] (Budgets.keyFn c (some a)) t.amount)
        (Budgets.keyFn c none) t.amount := by
    rw [Budgets.buildSpentMap, List.foldl_cons, List.foldl_nil, hstep]
  refine ⟨?_, ?_, ?_, ?_⟩
  · rw [hfold, hstep, recGet_recAdd_ne _ _ _ _ hkey,
      recGet_recAdd_self]
    simp
  · rw [hfold, hstep, recGet_recAdd_self,
      recGet_recAdd_ne _ _ _ _ (Ne.symm hkey)]
    simp
  · rw [Budgets.budgetRow]
    simp only [hbAccC, hbAccA, hsingle]
    rw [recGet_recAdd_ne _ _ _ _ hkey, recGet_recAdd_self]
    simp [recGet]
  · rw [Budgets.budgetRow]
    simp only [hbAllC, hbAllA, hsingle]
    rw [recGet_recAdd_self, recGet_recAdd_ne _ _ _ _ (Ne.symm hkey)]
    simp [recGet]

/-- Witness for C3 on a single concrete expense of 700 in category food
from account A1, with a budget on (food, A1) and one on (food, all). -/
theorem c3_budget_dual_bucket_witness :
    (recGet (Budgets.buildSpentMap ([] ++ [⟨some "food", some "A1",
          TxType.expense, 700⟩])) (Budgets.keyFn "food" (some "A1"))).getD 0 =
        (recGet (Budgets.buildSpentMap [])
          (Budgets.keyFn "food" (some "A1"))).getD 0 + 700 ∧
      (recGet (Budgets.buildSpentMap ([] ++ [⟨some "food", some "A1",
          TxType.expense, 700⟩])) (Budgets.keyFn "food" none)).getD 0 =
        (recGet (Budgets.buildSpentMap [])
          (Budgets.keyFn "food" none)).getD 0 + 700 ∧
      (Budgets.budgetRow (Budgets.buildSpentMap
          [⟨some "food", some "A1", TxType.expense, 700⟩])
        ⟨"b1", "food", some "A1", 1000⟩).spent = 700 ∧
      (Budgets.budgetRow (Budgets.buildSpentMap
          [⟨some "food", some "A1", TxType.expense, 700⟩])
        ⟨"b2", "food", none, 1000⟩).spent = 700 :=
  c3_budget_dual_bucket [] ⟨some "food", some "A1", TxType.expense, 700⟩
    "food" "A1" rfl rfl (by decide) rfl (by decide)
    ⟨"b1", "food", some "A1", 1000⟩ ⟨"b2", "food", none, 1000⟩
    rfl rfl rfl rfl

/-- The spent field of a budget row is the bucket total of its key. -/
theorem budgetRow_spent (sm : List (String × ℚ)) (b : Budgets.Budget) :
    (Budgets.budgetRow sm b).spent =
      (recGet sm (Budgets.keyFn b.category_id b.account_id)).getD 0 := rfl

/-- The pct field of a budget row in terms of its spent field. -/
theorem budgetRow_pct (sm : List (String × ℚ)) (b : Budgets.Budget) :
    (Budgets.budgetRow sm b).pct =
      (if b.amount > 0 then
        min 100 ((Budgets.budgetRow sm b).spent / b.amount * 100) else 0) := rfl

/-- The remaining field of a budget row in terms of its spent field. -/
theorem budgetRow_remaining (sm : List (String × ℚ)) (b : Budgets.Budget) :
    (Budgets.budgetRow sm b).remaining =
      max 0 (b.amount - (Budgets.budgetRow sm b).spent) := rfl

/-- The status field of a budget row in terms of its pct field. -/
theorem budgetRow_status (sm : List (String × ℚ)) (b : Budgets.Budget) :
    (Budgets.budgetRow sm b).status =
      (if (Budgets.budgetRow sm b).pct ≥ 100 then "exceeded"
       else if (Budgets.budgetRow sm b).pct ≥ 80 then "warning"
       else "safe") := rfl

/-- C4 counterexample: a budget with target 0 and spent 1 has spent
greater than target, yet utilization 0 (not 100) and status safe (not
exceeded), because the pct formula returns 0 whenever the target is not
positive. -/
theorem c4_utilization_clamp_counterexample :
    (Budgets.budgetRow [(Budgets.keyFn "food" none, 1)]
          ⟨"b", "food", none, 0⟩).spent >
        (⟨"b", "food", none, 0⟩ : Budgets.Budget).amount ∧
      (Budgets.budgetRow [(Budgets.keyFn "food" none, 1)]
          ⟨"b", "food", none, 0⟩).pct ≠ 100 ∧
      (Budgets.budgetRow [(Budgets.keyFn "food" none, 1)]
          ⟨"b", "food", none, 0⟩).status ≠ "exceeded" := by
  refine ⟨?_, ?_, ?_⟩ <;>
    norm_num +decide [Budgets.budgetRow, Budgets.keyFn, recGet]

/-- C4 amended: remaining and utilization follow the clamped formulas,
and for every budget with positive target T and spent S > T the
utilization is exactly 100, remaining is 0 and the status is exceeded;
for a non-positive target the utilization is 0 regardless of spend. -/
theorem c4_utilization_clamp (sm : List (String × ℚ)) (b : Budgets.Budget) :
    (Budgets.budgetRow sm b).remaining =
        max 0 (b.amount - (Budgets.budgetRow sm b).spent) ∧
      (Budgets.budgetRow sm b).pct =
        (if b.amount > 0 then
          min 100 ((Budgets.budgetRow sm b).spent / b.amount * 100) else 0) ∧
      (b.amount > 0 → (Budgets.budgetRow sm b).spent > b.amount →
        (Budgets.budgetRow sm b).pct = 100 ∧
        (Budgets.budgetRow sm b).remaining = 0 ∧
        (Budgets.budgetRow sm b).status = "exceeded") := by
  refine ⟨budgetRow_remaining sm b, budgetRow_pct sm b, ?_⟩
  intro hT hS
  have hpct : (Budgets.budgetRow sm b).pct = 100 := by
    rw [budgetRow_pct, if_pos hT]
    have h1 : (100 : ℚ) ≤ (Budgets.budgetRow sm b).spent / b.amount * 100 := by
      have : (1 : ℚ) < (Budgets.budgetRow sm b).spent / b.amount :=
        (one_lt_div hT).mpr hS
      nlinarith
    exact min_eq_left h1
  refine ⟨hpct, ?_, ?_⟩
  · rw [budgetRow_remaining]
    have : b.amount - (Budgets.budgetRow sm b).spent ≤ 0 := by linarith
    simpa [max_eq_left] using max_eq_left this
  · rw [budgetRow_status, hpct]
    norm_num

/-- Witness for C4 with target 100 and spent 150. -/
theorem c4_utilization_clamp_witness :
    (Budgets.budgetRow [(Budgets.keyFn "food" (some "A1"), 150)]
          ⟨"b", "food", some "A1", 100⟩).pct = 100 ∧
      (Budgets.budgetRow [(Budgets.keyFn "food" (some "A1"), 150)]
          ⟨"b", "food", some "A1", 100⟩).remaining = 0 ∧
      (Budgets.budgetRow [(Budgets.keyFn "food" (some "A1"), 150)]
          ⟨"b", "food", some "A1", 100⟩).status = "exceeded" :=
  (c4_utilization_clamp [(Budgets.keyFn "food" (some "A1"), 150)]
      ⟨"b", "food", some "A1", 100⟩).2.2
    (by norm_num)
    (by norm_num [Budgets.budgetRow, Budgets.keyFn, recGet])

/-- C5 counterexample: with target 0 and no spending, spent is equal to
(hence at least) the target, yet the status is safe, not exceeded: the
spent-at-least-target rule does not hold at the target = 0 boundary. -/
theorem c5_status_thresholds_counterexample :
    (Budgets.budgetRow [] ⟨"b", "food", none, 0⟩).spent ≥
        (⟨"b", "food", none, 0⟩ : Budgets.Budget).amount ∧
      (Budgets.budgetRow [] ⟨"b", "food", none, 0⟩).status = "safe" ∧
      (Budgets.budgetRow [] ⟨"b", "food", none, 0⟩).status ≠ "exceeded" := by
  refine ⟨?_, ?_, ?_⟩ <;>
    norm_num +decide [Budgets.budgetRow, Budgets.keyFn, recGet]

/-- C5 amended: with a positive target, spent at or above target gives
status exceeded; utilization in [80, 100) gives warning and below 80
gives safe (these two hold for any target); with a non-positive target
the utilization is 0 and the status is safe even when spent exceeds the
target.  The 100 and 80 thresholds are the fixed constants of the
source. -/
theorem c5_status_thresholds (sm : List (String × ℚ)) (b : Budgets.Budget) :
    (b.amount > 0 → (Budgets.budgetRow sm b).spent ≥ b.amount →
        (Budgets.budgetRow sm b).status = "exceeded") ∧
      (80 ≤ (Budgets.budgetRow sm b).pct → (Budgets.budgetRow sm b).pct < 100 →
        (Budgets.budgetRow sm b).status = "warning") ∧
      ((Budgets.budgetRow sm b).pct < 80 →
        (Budgets.budgetRow sm b).status = "safe") ∧
      (¬ b.amount > 0 →
        (Budgets.budgetRow sm b).pct = 0 ∧
        (Budgets.budgetRow sm b).status = "safe") := by
  refine ⟨?_, ?_, ?_, ?_⟩
  · intro hT hS
    have hpct : (Budgets.budgetRow sm b).pct = 100 := by
      rw [budgetRow_pct, if_pos hT]
      have h1 : (100 : ℚ) ≤ (Budgets.budgetRow sm b).spent / b.amount * 100 := by
        have : (1 : ℚ) ≤ (Budgets.budgetRow sm b).spent / b.amount :=
          (one_le_div hT).mpr hS
        nlinarith
      exact min_eq_left h1
    rw [budgetRow_status, hpct]
    norm_num
  · intro h80 h100
    rw [budgetRow_status, if_neg (by linarith), if_pos h80]
  · intro h80
    rw [budgetRow_status, if_neg (by linarith), if_neg (by linarith)]
  · intro hT
    have hpct : (Budgets.budgetRow sm b).pct = 0 := by
      rw [budgetRow_pct, if_neg hT]
    refine ⟨hpct, ?_⟩
    rw [budgetRow_status, hpct]
    norm_num

/-- Witness for C5: spent 100 of target 100 is exceeded, utilization 90
is warning, utilization 50 is safe, and target 0 gives safe with
utilization 0. -/
theorem c5_status_thresholds_witness :
    (Budgets.budgetRow [(Budgets.keyFn "food" none, 100)]
          ⟨"b", "food", none, 100⟩).status = "exceeded" ∧
      (Budgets.budgetRow [(Budgets.keyFn "food" none, 90)]
          ⟨"b", "food", none, 100⟩).status = "warning" ∧
      (Budgets.budgetRow [(Budgets.keyFn "food" none, 50)]
          ⟨"b", "food", none, 100⟩).status = "safe" ∧
      (Budgets.budgetRow [] ⟨"b", "food", none, 0⟩).pct = 0 ∧
      (Budgets.budgetRow [] ⟨"b", "food", none, 0⟩).status = "safe" :=
  ⟨(c5_status_thresholds [(Budgets.keyFn "food" none, 100)]
        ⟨"b", "food", none, 100⟩).1
      (by norm_num)
      (by norm_num [Budgets.budgetRow, Budgets.keyFn, recGet]),
    (c5_status_thresholds [(Budgets.keyFn "food" none, 90)]
        ⟨"b", "food", none, 100⟩).2.1
      (by norm_num [Budgets.budgetRow, Budgets.keyFn, recGet])
      (by norm_num [Budgets.budgetRow, Budgets.keyFn, recGet]),
    (c5_status_thresholds [(Budgets.keyFn "food" none, 50)]
        ⟨"b", "food", none, 100⟩).2.2.1
      (by norm_num [Budgets.budgetRow, Budgets.keyFn, recGet]),
    ((c5_status_thresholds [] ⟨"b", "food", none, 0⟩).2.2.2
      (by norm_num)).1,
    ((c5_status_thresholds [] ⟨"b", "food", none, 0⟩).2.2.2
      (by norm_num)).2⟩

/-- C8 counterexample: the TransactionManager addTransaction performs no
local amount validation; submitting the form with parsed amount -5
issues the remote insert with that non-positive amount. -/
theorem c8_nonpositive_amount_counterexample :
    TMAdd.addTransaction (some "u")
        ⟨TxType.expense, -5, "lunch", "2024-03-01", "A1", "", "cat1"⟩ =
      some ⟨"u", some "A1", none, some "cat1", TxType.expense, -5, "lunch",
        "2024-03-01"⟩ ∧
    (-5 : ℚ) ≤ 0 := by
  constructor
  · rfl
  · norm_num

/-- C8 amended: the part_004 addTransaction rejects every non-positive
parsed amount locally, before any remote insert; the TransactionManager
variant performs no such local check. -/
theorem c8_nonpositive_amount_rejected (uid : Option String)
    (f : TMAdd.NewTx) (h : f.amount ≤ 0) :
    FMAdd.addTransaction uid f = none := by
  unfold FMAdd.addTransaction
  split
  · rfl
  · exact if_pos (Or.inr h)

/-- Witness for C8 with a concrete form carrying amount -5. -/
theorem c8_nonpositive_amount_rejected_witness :
    FMAdd.addTransaction (some "u")
        ⟨TxType.expense, -5, "lunch", "2024-03-01", "A1", "", "cat1"⟩ =
      none :=
  c8_nonpositive_amount_rejected (some "u")
    ⟨TxType.expense, -5, "lunch", "2024-03-01", "A1", "", "cat1"⟩
    (by norm_num)

/-- C9: adding an account whose trimmed name matches an existing
account name case-insensitively is rejected before any write. -/
theorem c9_duplicate_name_rejected (accounts : List AccountMgr.Account)
    (user : Option String) (name : String) (balance : ℚ) (color : String)
    (h : ∃ a ∈ accounts, jsToLower a.name = jsToLower (jsTrim name)) :
    (AccountMgr.addAccount accounts user name balance color).isRejected =
      true := by
  obtain ⟨a, ha, heq⟩ := h
  unfold AccountMgr.addAccount
  split
  · rfl
  · split
    · rfl
    · have hany : accounts.any
          (fun a => jsToLower a.name == jsToLower (jsTrim name)) = true :=
        List.any_eq_true.mpr ⟨a, ha, beq_iff_eq.mpr heq⟩
      simp [hany, AccountMgr.AddAccountResult.isRejected]

/-- Witness for C9: an existing account Main rejects the new name
consisting of mAIn with surrounding spaces. -/
theorem c9_duplicate_name_rejected_witness :
    (AccountMgr.addAccount [⟨"a1", "Main", 0⟩] (some "u") "  mAIn " 0
        "#fff").isRejected = true :=
  c9_duplicate_name_rejected [⟨"a1", "Main", 0⟩] (some "u") "  mAIn " 0
    "#fff" ⟨⟨"a1", "Main", 0⟩, by decide, by decide⟩

/-- C10: a given loan whose amount exceeds the selected account balance
is rejected by addLoan before any remote write, and a returned-flag
toggle whose recomputed balance would be negative is rejected by
toggleLoanStatus before any remote write. -/
theorem c10_loan_guards
    (user : Option String) (accounts : List Loans.LAccount)
    (amount : ℚ) (aid : String) (acc : Loans.LAccount)
    (hfind : accounts.find? (fun a => a.id == aid) = some acc)
    (hbal : acc.balance < amount)
    (loans : List Loans.Loan) (accounts2 : List Loans.LAccount)
    (lid : String) (cur : Bool) (user2 : Option String)
    (loan : Loans.Loan) (acc2 : Loans.LAccount)
    (hfind2 : loans.find? (fun l => l.id == lid) = some loan)
    (hfind3 : accounts2.find? (fun a => some a.id == loan.account_id) =
      some acc2)
    (hneg : Loans.toggleNewBalance loan acc2.balance (!cur) < 0) :
    Loans.addLoan user accounts Loans.LoanType.given amount aid =
        Loans.AddLoanResult.rejected ∧
      Loans.toggleLoanStatus loans accounts2 lid cur user2 =
        Loans.ToggleResult.rejected := by
  constructor
  · unfold Loans.addLoan
    split
    · rfl
    · rw [hfind]
      exact if_pos ⟨rfl, hbal⟩
  · simp [Loans.toggleLoanStatus, hfind2, hfind3, hneg]

/-- Witness for C10: lending 200 from an account holding 100 is
rejected, and marking a received loan of 50 as returned from an account
holding 30 is rejected. -/
theorem c10_loan_guards_witness :
    Loans.addLoan (some "u") [⟨"A", 100⟩] Loans.LoanType.given 200 "A" =
        Loans.AddLoanResult.rejected ∧
      Loans.toggleLoanStatus
          [⟨"L", "p", 50, Loans.LoanType.received, "", some "A", false⟩]
          [⟨"A", 30⟩] "L" false (some "u") =
        Loans.ToggleResult.rejected :=
  c10_loan_guards (some "u") [⟨"A", 100⟩] 200 "A" ⟨"A", 100⟩ (by decide)
    (by norm_num)
    [⟨"L", "p", 50, Loans.LoanType.received, "", some "A", false⟩]
    [⟨"A", 30⟩] "L" false (some "u")
    ⟨"L", "p", 50, Loans.LoanType.received, "", some "A", false⟩ ⟨"A", 30⟩
    (by decide) (by decide) (by norm_num +decide [Loans.toggleNewBalance])
